import Mathlib

/-!
Verification of the hillel_homework repository: a shallow embedding of the
number pipeline (ConsoleApplication6.cpp) and the switchable logger
(main.cpp), together with theorems settling the specification claims.

Strings are embedded as `List Char`; machine `int` as `Int` with explicit
range checks where the C++ library performs them; the file system as an
`Option` of the file's lines (`none` = the file cannot be opened); observer
notification as an explicit event trace.
-/

/-- Characters classified as whitespace by `isspace` in the default locale,
used both by stream extraction (`ss >> number_str`) and by `strtol`. -/
def isSpaceChar (c : Char) : Bool :=
  c = ' ' || c = '\t' || c = '\n' || c = Char.ofNat 11 || c = Char.ofNat 12 || c = '\r'

/-- The whitespace-separated tokens of one line, in order: the behaviour of
the inner `while (ss >> number_str)` loop of `FileReader::read`. -/
def tokenize (line : List Char) : List (List Char) :=
  (line.splitOnP isSpaceChar).filter (fun t => t ≠ [])

/-- The two exception kinds `std::stoi` can throw. -/
inductive StoiErr
  | invalidArgument
  | outOfRange
deriving DecidableEq, Repr

/-- `INT_MIN` for the 32-bit `int` of the target platform. -/
def INT_MIN : Int := -(2 ^ 31)

/-- `INT_MAX` for the 32-bit `int` of the target platform. -/
def INT_MAX : Int := 2 ^ 31 - 1

/-- Numeric value of a list of decimal digits (most significant first). -/
def digitsVal (ds : List Char) : Nat :=
  ds.foldl (fun a c => a * 10 + (c.toNat - 48)) 0

/-- `std::stoi(s)` with the default base 10: skip leading whitespace, read an
optional sign, then the maximal run of decimal digits.  No digits means
`std::invalid_argument`; a value outside `[INT_MIN, INT_MAX]` means
`std::out_of_range`; otherwise the converted value is returned. -/
def stoi (s : List Char) : Except StoiErr Int :=
  let s1 := s.dropWhile isSpaceChar
  let signed : Int × List Char :=
    match s1 with
    | '-' :: rest => (-1, rest)
    | '+' :: rest => (1, rest)
    | _ => (1, s1)
  let ds := signed.2.takeWhile Char.isDigit
  if ds = [] then .error .invalidArgument
  else
    let v : Int := signed.1 * (digitsVal ds : Int)
    if v < INT_MIN || INT_MAX < v then .error .outOfRange
    else .ok v

/-- The two per-token warnings `FileReader::read` prints to `cerr`. -/
inductive Warning
  | invalidNumber (tok : List Char)
  | numberOutOfRange (tok : List Char)
deriving DecidableEq, Repr

/-- Body of the token loop of `FileReader::read`: a successful `stoi` pushes
the value, each exception kind appends its warning and skips the token. -/
def processTok (acc : List Int × List Warning) (tok : List Char) :
    List Int × List Warning :=
  match stoi tok with
  | .ok n => (acc.1 ++ [n], acc.2)
  | .error .invalidArgument => (acc.1, acc.2 ++ [.invalidNumber tok])
  | .error .outOfRange => (acc.1, acc.2 ++ [.numberOutOfRange tok])

/-- Body of the line loop of `FileReader::read` (one `getline` iteration). -/
def processLine (acc : List Int × List Warning) (line : List Char) :
    List Int × List Warning :=
  (tokenize line).foldl processTok acc

/-- `FileReader::read`.  `contents` is the file keyed by `filename`:
`none` when the file cannot be opened (the `runtime_error` branch), otherwise
its list of lines.  Returns the collected numbers and the emitted warnings. -/
def FileReader.read (filename : List Char) (contents : Option (List (List Char))) :
    Except (List Char) (List Int × List Warning) :=
  match contents with
  | none => .error ("Could not open file: ".toList ++ filename)
  | some lines => .ok (lines.foldl processLine ([], []))

/-- Declarative reading of the token stream: the `stoi` values of the tokens
that parse, in order. -/
def keptValues (toks : List (List Char)) : List Int :=
  toks.filterMap (fun t => (stoi t).toOption)

/-- Declarative reading of the warnings: one warning per failing token, in
order, tagged with the exception kind. -/
def tokenWarnings (toks : List (List Char)) : List Warning :=
  toks.filterMap (fun t =>
    match stoi t with
    | .ok _ => none
    | .error .invalidArgument => some (.invalidNumber t)
    | .error .outOfRange => some (.numberOutOfRange t))

/-- `EvenNumberFilter::keep`: C++ `%` is truncated remainder (`Int.tmod`). -/
def EvenNumberFilter.keep (number : Int) : Bool :=
  number.tmod 2 == 0

/-- `OddNumberFilter::keep`. -/
def OddNumberFilter.keep (number : Int) : Bool :=
  number.tmod 2 != 0

/-- `GreaterThanFilter::keep` for a filter built with `threshold`. -/
def GreaterThanFilter.keep (threshold number : Int) : Bool :=
  decide (number > threshold)

/-- The concrete filter objects `FilterFactory` can produce. -/
inductive NumberFilter
  | even
  | odd
  | gt (threshold : Int)
deriving DecidableEq, Repr

/-- Virtual dispatch of `INumberFilter::keep` over the three subclasses. -/
def NumberFilter.keep : NumberFilter → Int → Bool
  | .even, n => EvenNumberFilter.keep n
  | .odd, n => OddNumberFilter.keep n
  | .gt t, n => GreaterThanFilter.keep t n

/-- The exceptions `FilterFactory::createFilter` can throw: the
`invalid_argument` for an unknown type name, and the rethrown
`invalid_argument` / `out_of_range` of the GT creator. -/
inductive FilterErr
  | unknownFilterType (filterType : List Char)
  | invalidArgumentGT (arg : List Char)
  | outOfRangeGT (arg : List Char)
deriving DecidableEq, Repr

/-- `FilterFactory::createFilter` over the constructor-registered creators
EVEN, ODD and GT: a registry hit runs the creator (GT converting its argument
with `stoi` and rethrowing tagged exceptions), a miss throws
`invalid_argument{"Unknown filter type: ..."}`. -/
def FilterFactory.createFilter (filterType filterArg : List Char) :
    Except FilterErr NumberFilter :=
  if filterType = "EVEN".toList then .ok .even
  else if filterType = "ODD".toList then .ok .odd
  else if filterType = "GT".toList then
    match stoi filterArg with
    | .ok threshold => .ok (.gt threshold)
    | .error .invalidArgument => .error (.invalidArgumentGT filterArg)
    | .error .outOfRange => .error (.outOfRangeGT filterArg)
  else .error (.unknownFilterType filterType)

/-- One observer callback, recorded with the index of the observer in the
registered list (`0` = first registered). -/
inductive Event
  | on_number (obs : Nat) (number : Int)
  | on_finished (obs : Nat)
deriving DecidableEq, Repr

/-- `NumberProcessor::notifyObservers`: `on_number` on each observer in
registration order. -/
def notifyObservers (numObservers : Nat) (number : Int) : List Event :=
  (List.range numObservers).map (fun i => .on_number i number)

/-- `NumberProcessor::notifyFinished`: `on_finished` on each observer in
registration order. -/
def notifyFinished (numObservers : Nat) : List Event :=
  (List.range numObservers).map (fun i => .on_finished i)

/-- `NumberProcessor::run`: read, filter, notify; a `runtime_error` from the
reader is caught, reported (second component), and ends the run with no
observer callback.  The first component is the trace of observer calls. -/
def NumberProcessor.run (numObservers : Nat) (filter : NumberFilter)
    (filename : List Char) (contents : Option (List (List Char))) :
    List Event × Option (List Char) :=
  match FileReader.read filename contents with
  | .error e => ([], some ("Error during processing: ".toList ++ e))
  | .ok (numbers, _) =>
      (numbers.foldl
        (fun evs number =>
          if filter.keep number then evs ++ notifyObservers numObservers number
          else evs)
        [] ++ notifyFinished numObservers, none)

/-- Lines 185–194 of `main`: an `argv[1]` starting with "GT" is split into
type "GT" and the remaining characters as the argument; anything else is the
type itself with an empty argument. -/
def parseFilterSpec (filter_arg : List Char) : List Char × List Char :=
  if filter_arg.take 2 = "GT".toList then ("GT".toList, filter_arg.drop 2)
  else (filter_arg, [])

/-- `main` of the pipeline program.  `args` are the user arguments
`argv[1..]`; `contents` is the file named by the second argument (`none` if
it cannot be opened).  Returns the exit code and the observer-call trace of
the run (two observers are registered: print then count). -/
def pipelineMain (args : List (List Char)) (contents : Option (List (List Char))) :
    Nat × List Event :=
  match args with
  | filter_arg :: filename :: _ =>
    let ftv := parseFilterSpec filter_arg
    match FilterFactory.createFilter ftv.1 ftv.2 with
    | .error _ => (1, [])
    | .ok filter => (0, (NumberProcessor.run 2 filter filename contents).1)
  | _ => (1, [])

/-- Does a `createFilter` result carry the unknown-filter-type condition? -/
def createsUnknown : Except FilterErr NumberFilter → Bool
  | .error (.unknownFilterType _) => true
  | _ => false

/-- The sink objects of main.cpp.  A `FileSink` records whether opening
`app.log` succeeded at construction. -/
inductive Sink
  | consoleSink
  | fileSink (file_open : Bool)
  | nullSink
deriving DecidableEq, Repr

/-- `enum class SinkType`. -/
inductive SinkType
  | CONSOLE
  | FILE
  | NONE
deriving DecidableEq, Repr

/-- A value passed to `set_sink`: the three enumerators, or a value outside
the enumerator range (reachable in C++ by casting), which lands in the
`default` branch. -/
inductive SinkReq
  | CONSOLE
  | FILE
  | NONE
  | outOfEnum
deriving DecidableEq, Repr

/-- The state of the `Logger` singleton: the owned sink (`none` models a
null `unique_ptr`) and the recorded current sink type. -/
structure LoggerState where
  sink_ : Option Sink
  current_sink_type_ : SinkType
deriving DecidableEq, Repr

/-- The private `Logger()` constructor: console sink, recorded type CONSOLE
(the member's default initializer). -/
def Logger.init : LoggerState :=
  { sink_ := some .consoleSink, current_sink_type_ := .CONSOLE }

/-- The message `set_sink` prints on each branch. -/
inductive SinkMsg
  | redirectedToConsole
  | redirectedToFile
  | loggingDisabled
  | unknownSinkWarning
deriving DecidableEq, Repr

/-- `Logger::set_sink`.  `fileOpens` says whether opening `app.log` in append
mode succeeds when a `FileSink` is constructed.  Each recognized enumerator
installs exactly one fresh sink and records its type; the `default` branch
changes nothing and warns. -/
def Logger.set_sink (fileOpens : Bool) (st : LoggerState) (req : SinkReq) :
    LoggerState × SinkMsg :=
  match req with
  | .CONSOLE =>
    ({ sink_ := some .consoleSink, current_sink_type_ := .CONSOLE },
      .redirectedToConsole)
  | .FILE =>
    ({ sink_ := some (.fileSink fileOpens), current_sink_type_ := .FILE },
      .redirectedToFile)
  | .NONE =>
    ({ sink_ := some .nullSink, current_sink_type_ := .NONE },
      .loggingDisabled)
  | .outOfEnum => (st, .unknownSinkWarning)

/-- Outcome of one `Logger::log` call: which sink the formatted message was
handed to, or the `"Error: Sink not set."` branch. -/
inductive LogOutcome
  | wrote (s : Sink)
  | sinkNotSetError
deriving DecidableEq, Repr

/-- `Logger::log`: forwards to the owned sink when present, otherwise reports
the sink-not-set error. -/
def Logger.log (st : LoggerState) : LogOutcome :=
  match st.sink_ with
  | some s => .wrote s
  | none => .sinkNotSetError

/-- Does a log call hit the null-sink error branch? -/
def LogOutcome.hitsNotSet : LogOutcome → Bool
  | .sinkNotSetError => true
  | _ => false

/-- The logger state after a sequence of `set_sink` calls starting from the
constructed singleton; each call carries whether `app.log` would open. -/
def Logger.applyAll (reqs : List (SinkReq × Bool)) : LoggerState :=
  reqs.foldl (fun st rb => (Logger.set_sink rb.2 st rb.1).1) Logger.init

/-! ## Helper lemmas -/

theorem keptValues_append (xs ys : List (List Char)) :
    keptValues (xs ++ ys) = keptValues xs ++ keptValues ys := by
  simp [keptValues]

theorem tokenWarnings_append (xs ys : List (List Char)) :
    tokenWarnings (xs ++ ys) = tokenWarnings xs ++ tokenWarnings ys := by
  simp [tokenWarnings]

theorem foldl_processTok_eq (ts : List (List Char)) (a : List Int) (w : List Warning) :
    ts.foldl processTok (a, w) = (a ++ keptValues ts, w ++ tokenWarnings ts) := by
  induction ts generalizing a w with
  | nil => simp [keptValues, tokenWarnings]
  | cons t ts ih =>
    rw [List.foldl_cons]
    cases hs : stoi t with
    | ok n =>
      simp [processTok, hs, ih, keptValues, tokenWarnings, List.filterMap_cons,
        Except.toOption]
    | error e =>
      cases e <;>
        simp [processTok, hs, ih, keptValues, tokenWarnings, List.filterMap_cons,
          Except.toOption]

theorem foldl_processLine_eq (lines : List (List Char)) (a : List Int) (w : List Warning) :
    lines.foldl processLine (a, w) =
      (a ++ keptValues (lines.flatMap tokenize),
        w ++ tokenWarnings (lines.flatMap tokenize)) := by
  induction lines generalizing a w with
  | nil => simp [keptValues, tokenWarnings]
  | cons l ls ih =>
    rw [List.foldl_cons]
    show ls.foldl processLine ((tokenize l).foldl processTok (a, w)) = _
    rw [foldl_processTok_eq]
    simp [ih, keptValues_append, tokenWarnings_append]

theorem notifyObservers_two (n : Int) :
    notifyObservers 2 n = [.on_number 0 n, .on_number 1 n] := rfl

theorem notifyFinished_two :
    notifyFinished 2 = [.on_finished 0, .on_finished 1] := rfl

theorem notifyObservers_two_fun :
    notifyObservers 2 = fun n : Int => ([.on_number 0 n, .on_number 1 n] : List Event) :=
  funext notifyObservers_two

theorem foldl_notify_eq (filter : NumberFilter) (numObservers : Nat)
    (numbers : List Int) (acc : List Event) :
    numbers.foldl
        (fun evs number =>
          if filter.keep number then evs ++ notifyObservers numObservers number
          else evs)
        acc
      = acc ++ (numbers.filter filter.keep).flatMap (notifyObservers numObservers) := by
  induction numbers generalizing acc with
  | nil => simp
  | cons n ns ih =>
    cases h : filter.keep n <;>
      simp [h, ih, List.filter_cons, List.append_assoc]

/-! ## Claim theorems -/

/-- C1: for every file the reader can open, `FileReader::read` returns
exactly the `stoi` values of the whitespace-separated tokens that parse as
integers within range, in their original left-to-right, top-to-bottom order
(line by line, token by token); each non-parsing or out-of-range token is
excluded and contributes exactly one warning, in the same order, and no
failing token aborts the read (the result is `ok`). -/
theorem fileReader_read_tokens_in_order (filename : List Char)
    (lines : List (List Char)) :
    FileReader.read filename (some lines) =
      .ok (keptValues (lines.flatMap tokenize),
        tokenWarnings (lines.flatMap tokenize)) := by
  show Except.ok (lines.foldl processLine ([], [])) = _
  rw [foldl_processLine_eq]
  simp

/-- C4: when the reader throws (the file cannot be opened),
`NumberProcessor::run` catches the `runtime_error`, reports it, and produces
an empty observer-call trace: no `on_number` and no `on_finished` at all. -/
theorem run_fatal_no_callbacks (numObservers : Nat) (filter : NumberFilter)
    (filename : List Char) :
    NumberProcessor.run numObservers filter filename none =
      ([], some ("Error during processing: ".toList ++
        ("Could not open file: ".toList ++ filename))) := rfl

/-- C3: with the two observers registered in order [A, B] (indices 0 and 1),
the trace of a successful run is, for each kept number in file order,
`A.on_number` immediately followed by `B.on_number`, and only after every
number has been processed `A.on_finished` then `B.on_finished`. -/
theorem run_observer_order (filter : NumberFilter) (filename : List Char)
    (lines : List (List Char)) :
    NumberProcessor.run 2 filter filename (some lines) =
      (((keptValues (lines.flatMap tokenize)).filter filter.keep).flatMap
          (fun n => [.on_number 0 n, .on_number 1 n]) ++
        [.on_finished 0, .on_finished 1], none) := by
  show (match FileReader.read filename (some lines) with
    | .error e => ([], some ("Error during processing: ".toList ++ e))
    | .ok (numbers, _) =>
        (numbers.foldl
          (fun evs number =>
            if filter.keep number then evs ++ notifyObservers 2 number else evs)
          [] ++ notifyFinished 2, none)) = _
  rw [fileReader_read_tokens_in_order]
  simp only [foldl_notify_eq]
  simp only [notifyObservers_two_fun, notifyFinished_two, List.nil_append]

/-- C5: the EVEN and ODD predicates partition the integers exactly — for
every integer (negative values included, under C++ truncated `%`), exactly
one of `EvenNumberFilter::keep` and `OddNumberFilter::keep` is true. -/
theorem even_odd_partition_exact (n : Int) :
    (EvenNumberFilter.keep n = true ∧ OddNumberFilter.keep n = false) ∨
    (EvenNumberFilter.keep n = false ∧ OddNumberFilter.keep n = true) := by
  by_cases h : n.tmod 2 = 0
  · left
    simp [EvenNumberFilter.keep, OddNumberFilter.keep, h]
  · right
    simp [EvenNumberFilter.keep, OddNumberFilter.keep, h]

/-- C6: `GreaterThanFilter(T).keep(v)` is true exactly when `v > T`, and in
particular the boundary value `T` itself is rejected. -/
theorem gt_keep_strictly_greater (threshold number : Int) :
    (GreaterThanFilter.keep threshold number = true ↔ number > threshold) ∧
    GreaterThanFilter.keep threshold threshold = false := by
  constructor
  · simp [GreaterThanFilter.keep]
  · simp [GreaterThanFilter.keep]

/-- C2: the pipeline CLI exits with code 1 on fewer than 2 user arguments or
when the filter specification is rejected by the factory; in every other
case — for every file-system outcome `contents`, including an unopenable
file (`none`) — it exits with code 0. -/
theorem pipeline_exit_codes (args : List (List Char))
    (contents : Option (List (List Char))) :
    (args.length < 2 → (pipelineMain args contents).1 = 1) ∧
    (∀ filter_arg filename rest, args = filter_arg :: filename :: rest →
      (∀ e, FilterFactory.createFilter (parseFilterSpec filter_arg).1
          (parseFilterSpec filter_arg).2 = .error e →
        (pipelineMain args contents).1 = 1) ∧
      (∀ f, FilterFactory.createFilter (parseFilterSpec filter_arg).1
          (parseFilterSpec filter_arg).2 = .ok f →
        (pipelineMain args contents).1 = 0)) := by
  constructor
  · intro h
    match args with
    | [] => rfl
    | [a] => rfl
    | a :: b :: rest => simp at h; omega
  · rintro filter_arg filename rest rfl
    constructor
    · intro e he
      simp [pipelineMain, parseFilterSpec] at he ⊢
      rw [he]
    · intro f hf
      simp [pipelineMain, parseFilterSpec] at hf ⊢
      rw [hf]

/-- Witness for C2 at concrete inputs: no arguments → 1; a valid filter with
an unopenable file → 0; an unknown filter name → 1. -/
theorem pipeline_exit_codes_witness :
    (pipelineMain [] none).1 = 1 ∧
    (pipelineMain ["EVEN".toList, "f".toList] none).1 = 0 ∧
    (pipelineMain ["FOO".toList, "f".toList] none).1 = 1 :=
  ⟨(pipeline_exit_codes [] none).1 (by decide),
    ((pipeline_exit_codes ["EVEN".toList, "f".toList] none).2
        "EVEN".toList "f".toList [] rfl).2 .even (by rfl),
    ((pipeline_exit_codes ["FOO".toList, "f".toList] none).2
        "FOO".toList "f".toList [] rfl).1 (.unknownFilterType "FOO".toList) (by rfl)⟩

/-- C7: `createFilter` throws the unknown-filter-type condition for every
name outside the registered {EVEN, ODD, GT}; for "GT" it rethrows
`stoi`'s `invalid_argument` as the invalid-argument condition and
`stoi`'s `out_of_range` as the distinct out-of-range condition, and on a
parsing argument returns the greater-than predicate; "EVEN" and "ODD"
return their predicates for any argument. -/
theorem createFilter_conditions :
    (∀ filterType arg, filterType ≠ "EVEN".toList → filterType ≠ "ODD".toList →
      filterType ≠ "GT".toList →
      FilterFactory.createFilter filterType arg =
        .error (.unknownFilterType filterType)) ∧
    (∀ arg, stoi arg = .error .invalidArgument →
      FilterFactory.createFilter "GT".toList arg =
        .error (.invalidArgumentGT arg)) ∧
    (∀ arg, stoi arg = .error .outOfRange →
      FilterFactory.createFilter "GT".toList arg = .error (.outOfRangeGT arg)) ∧
    (∀ arg t, stoi arg = .ok t →
      FilterFactory.createFilter "GT".toList arg = .ok (.gt t)) ∧
    (∀ arg, FilterFactory.createFilter "EVEN".toList arg = .ok .even) ∧
    (∀ arg, FilterFactory.createFilter "ODD".toList arg = .ok .odd) := by
  refine ⟨?_, ?_, ?_, ?_, fun arg => rfl, fun arg => rfl⟩
  · intro filterType arg h1 h2 h3
    unfold FilterFactory.createFilter
    rw [if_neg h1, if_neg h2, if_neg h3]
  · intro arg hs
    unfold FilterFactory.createFilter
    rw [if_neg (by decide), if_neg (by decide), if_pos rfl, hs]
  · intro arg hs
    unfold FilterFactory.createFilter
    rw [if_neg (by decide), if_neg (by decide), if_pos rfl, hs]
  · intro arg t hs
    unfold FilterFactory.createFilter
    rw [if_neg (by decide), if_neg (by decide), if_pos rfl, hs]

/-- Witness for C7 at concrete inputs: an unregistered name, a non-numeric
GT argument, an out-of-range GT argument, and a parsing GT argument. -/
theorem createFilter_conditions_witness :
    FilterFactory.createFilter "FOO".toList [] =
      .error (.unknownFilterType "FOO".toList) ∧
    FilterFactory.createFilter "GT".toList "x".toList =
      .error (.invalidArgumentGT "x".toList) ∧
    FilterFactory.createFilter "GT".toList "99999999999".toList =
      .error (.outOfRangeGT "99999999999".toList) ∧
    FilterFactory.createFilter "GT".toList "5".toList = .ok (.gt 5) :=
  ⟨createFilter_conditions.1 "FOO".toList [] (by decide) (by decide) (by decide),
    createFilter_conditions.2.1 "x".toList (by rfl),
    createFilter_conditions.2.2.1 "99999999999".toList (by rfl),
    createFilter_conditions.2.2.2.1 "5".toList 5 (by rfl)⟩

theorem set_sink_preserves_isSome (fileOpens : Bool) (st : LoggerState)
    (req : SinkReq) (h : st.sink_.isSome = true) :
    ((Logger.set_sink fileOpens st req).1).sink_.isSome = true := by
  cases req <;> simp [Logger.set_sink, h]

theorem foldl_set_sink_isSome (reqs : List (SinkReq × Bool)) (st : LoggerState)
    (h : st.sink_.isSome = true) :
    (reqs.foldl (fun st rb => (Logger.set_sink rb.2 st rb.1).1) st).sink_.isSome
      = true := by
  induction reqs generalizing st with
  | nil => exact h
  | cons rb reqs ih => exact ih _ (set_sink_preserves_isSome rb.2 st rb.1 h)

/-- C8: starting from the constructor's console sink, after any sequence of
`set_sink` calls the logger still owns exactly one sink (the owned pointer is
never null), so the null-sink error branch of `log` is unreachable. -/
theorem logger_sink_never_null (reqs : List (SinkReq × Bool)) :
    (Logger.applyAll reqs).sink_.isSome = true ∧
    (Logger.log (Logger.applyAll reqs)).hitsNotSet = false := by
  have h : (Logger.applyAll reqs).sink_.isSome = true :=
    foldl_set_sink_isSome reqs Logger.init rfl
  refine ⟨h, ?_⟩
  cases hs : (Logger.applyAll reqs).sink_ with
  | none => rw [hs] at h; simp at h
  | some s => simp [Logger.log, hs, LogOutcome.hitsNotSet]

/-- C9: `set_sink` with a value outside the enumerators takes the `default`
branch: it reports the warning, leaves the sink instance and the recorded
sink type unchanged, and a subsequent `log` behaves exactly as before. -/
theorem set_sink_unknown_noop (fileOpens : Bool) (st : LoggerState) :
    (Logger.set_sink fileOpens st .outOfEnum).1 = st ∧
    (Logger.set_sink fileOpens st .outOfEnum).2 = .unknownSinkWarning ∧
    Logger.log (Logger.set_sink fileOpens st .outOfEnum).1 = Logger.log st :=
  ⟨rfl, rfl, rfl⟩

/-- C10: every first argument starting with "GT" is routed to the GT factory
entry with the remaining characters as the threshold argument, so it can
never produce the unknown-filter-type condition; the bare argument "GT"
yields the empty threshold string, which `stoi` rejects as invalid, giving
exit code 1. -/
theorem gt_argument_routing (filter_arg filename : List Char)
    (rest : List (List Char)) (contents : Option (List (List Char)))
    (h : filter_arg.take 2 = "GT".toList) :
    parseFilterSpec filter_arg = ("GT".toList, filter_arg.drop 2) ∧
    createsUnknown (FilterFactory.createFilter (parseFilterSpec filter_arg).1
      (parseFilterSpec filter_arg).2) = false ∧
    stoi ("GT".toList.drop 2) = .error .invalidArgument ∧
    pipelineMain ("GT".toList :: filename :: rest) contents = (1, []) := by
  have hp : parseFilterSpec filter_arg = ("GT".toList, filter_arg.drop 2) := by
    simp [parseFilterSpec, h]
  refine ⟨hp, ?_, by rfl, by rfl⟩
  rw [hp]
  show createsUnknown (FilterFactory.createFilter "GT".toList _) = false
  unfold FilterFactory.createFilter
  rw [if_neg (by decide), if_neg (by decide), if_pos rfl]
  cases hs : stoi (filter_arg.drop 2) with
  | ok t => rfl
  | error e => cases e <;> rfl

/-- Witness for C10 at the concrete arguments "GT5" and bare "GT". -/
theorem gt_argument_routing_witness :
    parseFilterSpec "GT5".toList = ("GT".toList, "GT5".toList.drop 2) ∧
    createsUnknown (FilterFactory.createFilter (parseFilterSpec "GT5".toList).1
      (parseFilterSpec "GT5".toList).2) = false ∧
    stoi ("GT".toList.drop 2) = .error .invalidArgument ∧
    pipelineMain ("GT".toList :: "f".toList :: []) none = (1, []) :=
  gt_argument_routing "GT5".toList "f".toList [] none (by decide)
